import Mathlib

set_option maxHeartbeats 1000000

/-!
Verification development for the trade-executor swap routing and execution
subsystem.

The Python sources embedded here:

- tradeexecutor/ethereum/routing_data.py (default routing tables,
  create_uniswap_v2_compatible_routing, get_backtest_routing_model,
  get_routing_model)
- tradeexecutor/ethereum/uniswap_v2_execution.py (UniswapV2ExecutionModel:
  execute_trades, repair_unconfirmed_trades)

The Swap Router itself (UniswapV2SimpleRoutingModel.trade in
tradeexecutor/ethereum/uniswap_v2_routing.py) is not among the available
sources; it is modelled from the specification (spec.md section 4.1), as are
the small state helpers (is_unfinished, resolve_trades) used by the repair
procedure.  External collaborators (web3 RPC, wallet, gas and pricing) appear
as explicit function parameters, never as hidden state.
-/

/- ------------------------------------------------------------------ -/
/- Routing data: tradeexecutor/ethereum/routing_data.py               -/
/- ------------------------------------------------------------------ -/

/-- Reserve currency options for a strategy
(tradeexecutor.strategy.reserve_currency.ReserveCurrency, the four values
consumed by routing_data.py). -/
inductive ReserveCurrency
  | busd
  | usdc
  | usdt
  | dai
  deriving DecidableEq, Repr

/-- Default routing options supported by create_uniswap_v2_compatible_routing
(tradeexecutor.strategy.default_routing_options.TradeRouting: the eleven
variants the dispatcher handles). -/
inductive TradeRouting
  | pancakeswap_busd
  | pancakeswap_usdc
  | pancakeswap_usdt
  | quickswap_usdc
  | quickswap_usdt
  | quickswap_dai
  | trader_joe_usdc
  | trader_joe_usdt
  | uniswap_v2_usdc
  | uniswap_v2_usdt
  | uniswap_v2_dai
  deriving DecidableEq, Repr

/-- Chain identifiers used by the default routing tables
(tradingstrategy.chain.ChainId, the four values used in routing_data.py). -/
inductive ChainId
  | bsc
  | polygon
  | avalanche
  | ethereum
  deriving DecidableEq, Repr

/-- Raw smart-contract order-routing data (RoutingData TypedDict in
routing_data.py, plus the trading_fee key the parameter functions return).
factory_router_map entries are (factory address, router address, init code
hash). -/
structure RoutingData where
  chain_id : ChainId
  factory_router_map : List (String × String × String)
  allowed_intermediary_pairs : List (String × String)
  reserve_token_address : String
  quote_token_addresses : List String
  trading_fee : Nat
  deriving DecidableEq, Repr

/-- Errors raised by routing_data.py: the MismatchReserveCurrency exception
class, and Python's NotImplementedError for unsupported combinations. -/
inductive RoutingDataError
  | mismatchReserveCurrency
  | notImplementedError
  deriving DecidableEq, Repr

deriving instance DecidableEq for Except

/-- Python str.lower as the sources apply it to ASCII hex addresses, written
over the character list so that it evaluates inside the kernel. -/
def pyLower (s : String) : String := String.mk (s.data.map Char.toLower)

/-- Generate routing using the PancakeSwap v2 router on BNB Smart Chain
(get_pancake_default_routing_parameters in routing_data.py). -/
def get_pancake_default_routing_parameters (reserve_currency : ReserveCurrency) :
    Except RoutingDataError RoutingData := do
  let rp : String × List (String × String) ←
    match reserve_currency with
    | .busd => pure (pyLower "0xe9e7CEA3DedcA5984780Bafc599bD69ADd087D56",
        [("0xbb4cdb9cbd36b01bd1cbaebf2de08d9173bc095c",
          "0x58f876857a02d6762e0101bb5c46a8c1ed44dc16")])
    | .usdc => pure (pyLower "0x8ac76a51cc950d9822d68b83fe1ad97b32cd580d",
        [("0xbb4cdb9cbd36b01bd1cbaebf2de08d9173bc095c",
          "0xd99c7f6c65857ac913a8f880a4cb84032ab2fc5b")])
    | .usdt => pure (pyLower "0x55d398326f99059ff775485246999027b3197955",
        [("0xbb4cdb9cbd36b01bd1cbaebf2de08d9173bc095c",
          "0x16b9a82891338f9ba80e2d6970fdda79d1eb0dae")])
    | _ => .error .notImplementedError
  .ok {
    chain_id := ChainId.bsc
    factory_router_map := [("0xcA143Ce32Fe78f1f7019d7d551a6402fC5350c73",
      "0x10ED43C718714eb63d5aA57B78B54704E256024E",
      "0x00fb7f630766e6a796048ea87d01acd3068e8ff67d078148a3fa3f4a84f69bd5")]
    allowed_intermediary_pairs := rp.2
    reserve_token_address := rp.1
    quote_token_addresses := ["0xbb4cdb9cbd36b01bd1cbaebf2de08d9173bc095c",
      "0xe9e7CEA3DedcA5984780Bafc599bD69ADd087D56",
      "0x8ac76a51cc950d9822d68b83fe1ad97b32cd580d",
      "0x55d398326f99059ff775485246999027b3197955"]
    trading_fee := 25 }

/-- Generate routing using the Quickswap router on Polygon
(get_quickswap_default_routing_parameters in routing_data.py). -/
def get_quickswap_default_routing_parameters (reserve_currency : ReserveCurrency) :
    Except RoutingDataError RoutingData := do
  let rp : String × List (String × String) ←
    match reserve_currency with
    | .usdc => pure (pyLower "0x2791Bca1f2de4661ED88A30C99A7a9449Aa84174",
        [("0x0d500b1d8e8ef31e21c99d1db9a6444d3adf1270",
          "0x6e7a5fafcec6bb1e78bae2a1f0b612012bf14827")])
    | .usdt => pure (pyLower "0xc2132d05d31c914a87c6611c10748aeb04b58e8f",
        [("0x0d500b1d8e8ef31e21c99d1db9a6444d3adf1270",
          "0x604229c960e5cacf2aaeac8be68ac07ba9df81c3")])
    | .dai => pure (pyLower "0x8f3cf7ad23cd3cadbd9735aff958023239c6a063",
        [("0x2791bca1f2de4661ed88a30c99a7a9449aa84174",
          "0xf04adbf75cdfc5ed26eea4bbbb991db002036bdd")])
    | _ => .error .notImplementedError
  .ok {
    chain_id := ChainId.polygon
    factory_router_map := [("0x5757371414417b8C6CAad45bAeF941aBc7d3Ab32",
      "0xa5E0829CaCEd8fFDD4De3c43696c57F7D7A678ff",
      "0x96e8ac4277198ff8b6f785478aa9a39f403cb768dd02cbee326c3e7da348845f")]
    allowed_intermediary_pairs := rp.2
    reserve_token_address := rp.1
    quote_token_addresses := ["0x2791Bca1f2de4661ED88A30C99A7a9449Aa84174",
      "0x0d500b1d8e8ef31e21c99d1db9a6444d3adf1270"]
    trading_fee := 30 }

/-- Generate routing using the Trader Joe router on the Avalanche C-chain
(get_trader_joe_default_routing_parameters in routing_data.py).  The second
element of the source's quote_token_addresses set is two adjacent Python
string literals, which concatenate into one string; that concatenated value
is kept verbatim. -/
def get_trader_joe_default_routing_parameters (reserve_currency : ReserveCurrency) :
    Except RoutingDataError RoutingData := do
  let rp : String × List (String × String) ←
    match reserve_currency with
    | .usdc => pure (pyLower "0xb97ef9ef8734c71904d8002f8b6bc66dd9c48a6e",
        [("0xb31f66aa3c1e785363f0875a1b74e27b85fd66c7",
          "0xf4003f4efbe8691b60249e6afbd307abe7758adb")])
    | .usdt => pure (pyLower "0x9702230a8ea53601f5cd2dc00fdbc13d4df4a8c7",
        [("0xb31f66aa3c1e785363f0875a1b74e27b85fd66c7",
          "0xbb4646a764358ee93c2a9c4a147d5aded527ab73")])
    | _ => .error .notImplementedError
  .ok {
    chain_id := ChainId.avalanche
    factory_router_map := [("0x9Ad6C38BE94206cA50bb0d90783181662f0Cfa10",
      "0x60aE616a2155Ee3d9A68541Ba4544862310933d4",
      "0x0bbca9af0511ad1a1da383135cf3a8d2ac620e549ef9f6ae3a4c33c2fed0af91")]
    allowed_intermediary_pairs := rp.2
    reserve_token_address := rp.1
    quote_token_addresses := ["0xb97ef9ef8734c71904d8002f8b6bc66dd9c48a6e",
      "0x9702230a8ea53601f5cd2dc00fdbc13d4df4a8c70xb31f66aa3c1e785363f0875a1b74e27b85fd66c7"]
    trading_fee := 30 }

/-- Generate routing using the Uniswap v2 router on Ethereum mainnet
(get_uniswap_v2_default_routing_parameters in routing_data.py).  The init
code hash is kept verbatim without a 0x prefix, as in the source. -/
def get_uniswap_v2_default_routing_parameters (reserve_currency : ReserveCurrency) :
    Except RoutingDataError RoutingData := do
  let rp : String × List (String × String) ←
    match reserve_currency with
    | .usdc => pure (pyLower "0xA0b86991c6218b36c1d19D4a2e9Eb0cE3606eB48",
        [("0xC02aaA39b223FE8D0A0e5C4F27eAD9083C756Cc2",
          "0xb4e16d0168e52d35cacd2c6185b44281ec28c9dc")])
    | .usdt => pure (pyLower "0xdac17f958d2ee523a2206206994597c13d831ec7",
        [("0xC02aaA39b223FE8D0A0e5C4F27eAD9083C756Cc2",
          "0x0d4a11d5eeaac28ec3f61d100daf4d40471f1852")])
    | .dai => pure (pyLower "0x6b175474e89094c44da98b954eedeac495271d0f",
        [("0xC02aaA39b223FE8D0A0e5C4F27eAD9083C756Cc2",
          "0xa478c2975ab1ea89e8196811f51a7b7ade33eb11")])
    | _ => .error .notImplementedError
  .ok {
    chain_id := ChainId.ethereum
    factory_router_map := [("0x5C69bEe701ef814a2B6a3EDD4B1652CB9cc5aA6f",
      "0x7a250d5630B4cF539739dF2C5dAcb4c659F2488D",
      "96e8ac4277198ff8b6f785478aa9a39f403cb768dd02cbee326c3e7da348845f")]
    allowed_intermediary_pairs := rp.2
    reserve_token_address := rp.1
    quote_token_addresses := ["0xA0b86991c6218b36c1d19D4a2e9Eb0cE3606eB48",
      "0xC02aaA39b223FE8D0A0e5C4F27eAD9083C756Cc2",
      "0xdac17f958d2ee523a2206206994597c13d831ec7"]
    trading_fee := 30 }

/-- Modelled from the spec: the routing model for Uniswap v2 compatible
exchanges (UniswapV2SimpleRoutingModel in
tradeexecutor/ethereum/uniswap_v2_routing.py, a file not among the available
sources).  Per spec.md section 3 (RoutingTable) and the constructor call in
create_uniswap_v2_compatible_routing, it stores the factory-to-router map,
the allowed intermediary pairs, the reserve token address, the chain id and
the trading fee. -/
structure UniswapV2SimpleRoutingModel where
  factory_router_map : List (String × String × String)
  allowed_intermediary_pairs : List (String × String)
  reserve_token_address : String
  chain_id : ChainId
  trading_fee : Nat
  deriving DecidableEq, Repr

/-- Modelled from the spec: the capital-development routing model used by
backtests (BacktestRoutingModel in tradeexecutor/backtest/backtest_routing.py,
a file not among the available sources).  Per the constructor call in
get_backtest_routing_model it stores the three parameters copied from the
live routing model. -/
structure BacktestRoutingModel where
  factory_router_map : List (String × String × String)
  allowed_intermediary_pairs : List (String × String)
  reserve_token_address : String
  deriving DecidableEq, Repr

/-- Set up Uniswap v2 compatible routing
(create_uniswap_v2_compatible_routing in routing_data.py): first validate the
reserve currency against the routing type, raising MismatchReserveCurrency on
a mismatch, then build the routing model from the per-exchange default
parameters. -/
def create_uniswap_v2_compatible_routing (routing_type : TradeRouting)
    (reserve_currency : ReserveCurrency) :
    Except RoutingDataError UniswapV2SimpleRoutingModel := do
  let _ ← (match routing_type with
    | .pancakeswap_busd =>
      if reserve_currency ≠ ReserveCurrency.busd then
        Except.error RoutingDataError.mismatchReserveCurrency else pure ()
    | .pancakeswap_usdc =>
      if reserve_currency ≠ ReserveCurrency.usdc then
        Except.error RoutingDataError.mismatchReserveCurrency else pure ()
    | .pancakeswap_usdt =>
      if reserve_currency ≠ ReserveCurrency.usdt then
        Except.error RoutingDataError.mismatchReserveCurrency else pure ()
    | .quickswap_usdc =>
      if reserve_currency ≠ ReserveCurrency.usdc then
        Except.error RoutingDataError.mismatchReserveCurrency else pure ()
    | .quickswap_usdt =>
      if reserve_currency ≠ ReserveCurrency.usdt then
        Except.error RoutingDataError.mismatchReserveCurrency else pure ()
    | .quickswap_dai =>
      if reserve_currency ≠ ReserveCurrency.dai then
        Except.error RoutingDataError.mismatchReserveCurrency else pure ()
    | .trader_joe_usdc =>
      if reserve_currency ≠ ReserveCurrency.usdc then
        Except.error RoutingDataError.mismatchReserveCurrency else pure ()
    | .trader_joe_usdt =>
      if reserve_currency ≠ ReserveCurrency.usdt then
        Except.error RoutingDataError.mismatchReserveCurrency else pure ()
    | .uniswap_v2_usdc =>
      if reserve_currency ≠ ReserveCurrency.usdc then
        Except.error RoutingDataError.mismatchReserveCurrency else pure ()
    | .uniswap_v2_usdt =>
      if reserve_currency ≠ ReserveCurrency.usdt then
        Except.error RoutingDataError.mismatchReserveCurrency else pure ()
    | .uniswap_v2_dai =>
      if reserve_currency ≠ ReserveCurrency.dai then
        Except.error RoutingDataError.mismatchReserveCurrency else pure ()
    : Except RoutingDataError Unit)
  let params ←
    match routing_type with
    | .pancakeswap_busd | .pancakeswap_usdc | .pancakeswap_usdt =>
      get_pancake_default_routing_parameters reserve_currency
    | .quickswap_usdc | .quickswap_usdt | .quickswap_dai =>
      get_quickswap_default_routing_parameters reserve_currency
    | .trader_joe_usdc | .trader_joe_usdt =>
      get_trader_joe_default_routing_parameters reserve_currency
    | .uniswap_v2_usdc | .uniswap_v2_usdt | .uniswap_v2_dai =>
      get_uniswap_v2_default_routing_parameters reserve_currency
  pure {
    factory_router_map := params.factory_router_map
    allowed_intermediary_pairs := params.allowed_intermediary_pairs
    reserve_token_address := params.reserve_token_address
    chain_id := params.chain_id
    trading_fee := params.trading_fee }

/-- The reserve currency a routing type names (the currency whose mismatch
makes create_uniswap_v2_compatible_routing raise MismatchReserveCurrency). -/
def reserve_currency_named_by : TradeRouting → ReserveCurrency
  | .pancakeswap_busd => .busd
  | .pancakeswap_usdc => .usdc
  | .pancakeswap_usdt => .usdt
  | .quickswap_usdc => .usdc
  | .quickswap_usdt => .usdt
  | .quickswap_dai => .dai
  | .trader_joe_usdc => .usdc
  | .trader_joe_usdt => .usdt
  | .uniswap_v2_usdc => .usdc
  | .uniswap_v2_usdt => .usdt
  | .uniswap_v2_dai => .dai

/-- The per-exchange default routing parameters a routing type dispatches to
(second half of create_uniswap_v2_compatible_routing). -/
def default_routing_parameters_for (routing_type : TradeRouting)
    (reserve_currency : ReserveCurrency) : Except RoutingDataError RoutingData :=
  match routing_type with
  | .pancakeswap_busd | .pancakeswap_usdc | .pancakeswap_usdt =>
    get_pancake_default_routing_parameters reserve_currency
  | .quickswap_usdc | .quickswap_usdt | .quickswap_dai =>
    get_quickswap_default_routing_parameters reserve_currency
  | .trader_joe_usdc | .trader_joe_usdt =>
    get_trader_joe_default_routing_parameters reserve_currency
  | .uniswap_v2_usdc | .uniswap_v2_usdt | .uniswap_v2_dai =>
    get_uniswap_v2_default_routing_parameters reserve_currency

/-- Execution modes of a strategy (tradeexecutor.strategy.execution_context
.ExecutionMode; the values exercised by the sources, plus live trading). -/
inductive ExecutionMode
  | real_trading
  | backtesting
  | unit_testing_trading
  deriving DecidableEq, Repr

/-- Execution context wrapping the mode
(tradeexecutor.strategy.execution_context.ExecutionContext). -/
structure ExecutionContext where
  mode : ExecutionMode
  deriving DecidableEq, Repr

/-- The routing model returned by get_routing_model: either the live Uniswap
v2 model or the backtest model. -/
inductive RoutingModel
  | live (m : UniswapV2SimpleRoutingModel)
  | backtest (m : BacktestRoutingModel)
  deriving DecidableEq, Repr

/-- Get routing options for backtests (get_backtest_routing_model in
routing_data.py): create a real router and copy parameters from there. -/
def get_backtest_routing_model (routing_type : TradeRouting)
    (reserve_currency : ReserveCurrency) :
    Except RoutingDataError BacktestRoutingModel := do
  let real_routing_model ← create_uniswap_v2_compatible_routing routing_type reserve_currency
  pure {
    factory_router_map := real_routing_model.factory_router_map
    allowed_intermediary_pairs := real_routing_model.allowed_intermediary_pairs
    reserve_token_address := real_routing_model.reserve_token_address }

/-- Create the trade routing model for the strategy (get_routing_model in
routing_data.py): dispatch to the backtest model when the execution mode is
backtesting, otherwise to the live model. -/
def get_routing_model (execution_context : ExecutionContext)
    (routing_type : TradeRouting) (reserve_currency : ReserveCurrency) :
    Except RoutingDataError RoutingModel :=
  if execution_context.mode = ExecutionMode.backtesting then
    (get_backtest_routing_model routing_type reserve_currency).map RoutingModel.backtest
  else
    (create_uniswap_v2_compatible_routing routing_type reserve_currency).map RoutingModel.live

/- ------------------------------------------------------------------ -/
/- Swap Router: UniswapV2SimpleRoutingModel.trade                     -/
/- (modelled from spec.md section 4.1; the source file                -/
/- tradeexecutor/ethereum/uniswap_v2_routing.py is not available)     -/
/- ------------------------------------------------------------------ -/

/-- Asset (spec.md section 3): chain id, contract address, symbol, decimal
precision (tradeexecutor.state.identifier.AssetIdentifier). -/
structure AssetIdentifier where
  chain_id : Nat
  address : String
  token_symbol : String
  decimals : Nat
  deriving DecidableEq, Repr

/-- TradingPair (spec.md section 3): base asset, quote asset, pool contract
address, exchange identifier (the factory address), internal numeric id
(tradeexecutor.state.identifier.TradingPairIdentifier). -/
structure TradingPairIdentifier where
  base : AssetIdentifier
  quote : AssetIdentifier
  pool_address : String
  internal_id : Nat
  exchange_address : String
  deriving DecidableEq, Repr

/-- Modelled from the spec: the on-chain state the Swap Router observes
through the chain RPC collaborator (spec.md section 6): token balances and
token allowances.  Keys are (token, owner) and (token, owner, spender);
the freshest entry is consed in front, so List.lookup reads it first. -/
structure Chain where
  balances : List ((String × String) × Nat)
  allowances : List ((String × String × String) × Nat)
  deriving Repr

/-- Read a wallet's balance of a token (chain RPC read, spec.md section 6). -/
def Chain.balanceOf (c : Chain) (token owner : String) : Nat :=
  (c.balances.lookup (token, owner)).getD 0

/-- Read the live on-chain allowance for (token, owner, spender)
(chain RPC read, spec.md section 6). -/
def Chain.allowanceOf (c : Chain) (token owner spender : String) : Nat :=
  (c.allowances.lookup (token, owner, spender)).getD 0

/-- Record an allowance on chain (effect of a confirmed approve call). -/
def Chain.setAllowance (c : Chain) (token owner spender : String) (amount : Nat) : Chain :=
  { c with allowances := ((token, owner, spender), amount) :: c.allowances }

/-- Record a balance on chain. -/
def Chain.setBalance (c : Chain) (token owner : String) (amount : Nat) : Chain :=
  { c with balances := ((token, owner), amount) :: c.balances }

/-- Modelled from the spec: the two kinds of unsigned transaction the Swap
Router emits (spec.md section 4.1): a token approval for the router contract,
and the swap call carrying the resolved path as an ordered list of token
addresses. -/
inductive TxKind
  | approve (token spender : String) (amount : Nat)
  | swap (router : String) (path : List String) (amount_in : Nat) (amount_out_min : Nat)
  deriving DecidableEq, Repr

/-- Modelled from the spec: an unsigned transaction produced through the
Transaction Builder, which assigns monotonic nonces in request order
(spec.md sections 2 and 4.1). -/
structure UnsignedTx where
  nonce : Nat
  kind : TxKind
  deriving DecidableEq, Repr

/-- Modelled from the spec: the session-scoped Routing State
(UniswapV2RoutingState in tradeexecutor/ethereum/uniswap_v2_routing.py, not
among the available sources).  Per spec.md section 3 it owns a mutable cache
mapping (owner, spender, token) to a last-known-sufficient allowance mark,
and it reaches the Transaction Builder, whose nonce counter is carried here
explicitly. -/
structure UniswapV2RoutingState where
  approvals : List (String × String × String)
  next_nonce : Nat
  deriving DecidableEq, Repr

/-- Modelled from the spec: validation failures of the Swap Router
(spec.md sections 4.1 and 7): InvalidTradeRequest, UnroutablePair,
OutOfBalance (the latter is the OutOfBalance exception imported by
tests/ganache/test_uniswap_v2_routing.py). -/
inductive TradeError
  | invalidTradeRequest
  | unroutablePair
  | outOfBalance
  deriving DecidableEq, Repr

/-- The unlimited-allowance sentinel the approval transaction sets
(spec.md section 4.1: set allowance to a large/unlimited sentinel;
the uint256 maximum). -/
def maxApproval : Nat := 2 ^ 256 - 1

/-- Router contract for a pair: look its exchange (factory) address up in the
factory-to-router map (spec.md section 3, RoutingTable). -/
def UniswapV2SimpleRoutingModel.routerFor (model : UniswapV2SimpleRoutingModel)
    (pair : TradingPairIdentifier) : Option String :=
  (model.factory_router_map.find? (fun e => e.1 == pair.exchange_address)).map (fun e => e.2.1)

/-- Modelled from the spec: the three-leg leg of path selection
(spec.md section 4.1).  The mid token must have an intermediary pool
configured in the routing table, and the given intermediary pair must match
that configured pool; otherwise the trade is unroutable. -/
def UniswapV2SimpleRoutingModel.threeLegPath (model : UniswapV2SimpleRoutingModel)
    (first mid last : String) (intermediary_pair : Option TradingPairIdentifier) :
    Except TradeError (List String) :=
  match model.allowed_intermediary_pairs.lookup (pyLower mid) with
  | none => .error .unroutablePair
  | some pool =>
    match intermediary_pair with
    | none => .error .unroutablePair
    | some ip =>
      if pyLower ip.pool_address == pool then .ok [first, mid, last]
      else .error .unroutablePair

/-- Modelled from the spec: path selection (spec.md section 4.1).  If the
pair connects the reserve currency directly to the target asset the path is
the two addresses [input, output].  Otherwise, when the input asset is the
reserve currency (a three-leg buy) or the pair's base (a three-leg sell) and
an intermediary is configured in the routing table for the pair's quote
token, the path is [input, intermediary token, output]; the given
intermediary pair must match the configured pool.  Address comparisons are
case-insensitive (the routing tables store lowercased addresses).  The
router never searches for a path; a missing configuration fails with
UnroutablePair. -/
def UniswapV2SimpleRoutingModel.selectPath (model : UniswapV2SimpleRoutingModel)
    (pair : TradingPairIdentifier) (input_asset : AssetIdentifier)
    (intermediary_pair : Option TradingPairIdentifier) :
    Except TradeError (List String) :=
  if input_asset == pair.base || input_asset == pair.quote then
    if pyLower input_asset.address == pyLower model.reserve_token_address ||
        pyLower (if input_asset == pair.base then pair.quote else pair.base).address ==
          pyLower model.reserve_token_address then
      .ok [input_asset.address,
        (if input_asset == pair.base then pair.quote else pair.base).address]
    else if input_asset == pair.base then
      model.threeLegPath pair.base.address pair.quote.address
        model.reserve_token_address intermediary_pair
    else
      .error .unroutablePair
  else if pyLower input_asset.address == pyLower model.reserve_token_address then
    model.threeLegPath input_asset.address pair.quote.address pair.base.address
      intermediary_pair
  else
    .error .invalidTradeRequest

/-- Whether path selection takes the direct-pair branch (the pair connects
the reserve currency directly to the target asset). -/
def UniswapV2SimpleRoutingModel.isDirect (model : UniswapV2SimpleRoutingModel)
    (pair : TradingPairIdentifier) (input_asset : AssetIdentifier) : Bool :=
  (input_asset == pair.base || input_asset == pair.quote) &&
    (pyLower input_asset.address == pyLower model.reserve_token_address ||
     pyLower (if input_asset == pair.base then pair.quote else pair.base).address ==
       pyLower model.reserve_token_address)

/-- Modelled from the spec: the Swap Router's trade operation
(UniswapV2SimpleRoutingModel.trade, spec.md section 4.1).  Validates the
request, selects the path, checks the wallet balance when asked, consults
the Routing State's approval cache and the live on-chain allowance, and
emits the ordered transaction list (approval if needed, then the swap) with
monotonic nonces.  The quote function is the external pricing collaborator
(spec.md section 6).  Validation failures return the Routing State
unchanged and no transactions. -/
def UniswapV2SimpleRoutingModel.trade (model : UniswapV2SimpleRoutingModel)
    (quote : List String → Nat → Nat) (chain : Chain) (wallet : String)
    (routing_state : UniswapV2RoutingState) (pair : TradingPairIdentifier)
    (input_asset : AssetIdentifier) (input_amount : Nat)
    (check_balances : Bool) (intermediary_pair : Option TradingPairIdentifier) :
    Except TradeError (List UnsignedTx) × UniswapV2RoutingState :=
  if input_amount == 0 then (.error .invalidTradeRequest, routing_state)
  else
    match model.routerFor pair with
    | none => (.error .unroutablePair, routing_state)
    | some router =>
      match model.selectPath pair input_asset intermediary_pair with
      | .error e => (.error e, routing_state)
      | .ok path =>
        if check_balances && decide (chain.balanceOf input_asset.address wallet < input_amount) then
          (.error .outOfBalance, routing_state)
        else if routing_state.approvals.contains (wallet, router, input_asset.address) then
          (.ok [⟨routing_state.next_nonce,
                 .swap router path input_amount (quote path input_amount)⟩],
           { routing_state with next_nonce := routing_state.next_nonce + 1 })
        else if input_amount ≤ chain.allowanceOf input_asset.address wallet router then
          (.ok [⟨routing_state.next_nonce,
                 .swap router path input_amount (quote path input_amount)⟩],
           { approvals := (wallet, router, input_asset.address) :: routing_state.approvals
             next_nonce := routing_state.next_nonce + 1 })
        else
          (.ok [⟨routing_state.next_nonce, .approve input_asset.address router maxApproval⟩,
                ⟨routing_state.next_nonce + 1,
                 .swap router path input_amount (quote path input_amount)⟩],
           { approvals := (wallet, router, input_asset.address) :: routing_state.approvals
             next_nonce := routing_state.next_nonce + 2 })

/-- Modelled from the spec: the on-chain effect of a broadcast-and-confirmed
transaction, as far as the routing claims observe it.  An approve records
the allowance; a swap debits the input amount from the wallet's balance of
the path's first token.  The AMM output amounts belong to the external
pricing collaborator and are out of scope (spec.md section 1); per
spec.md section 8 the unlimited approval remains valid after the swap. -/
def applyTx (wallet : String) (c : Chain) (tx : UnsignedTx) : Chain :=
  match tx.kind with
  | .approve token spender amount => c.setAllowance token wallet spender amount
  | .swap _ path amount_in _ =>
    match path with
    | [] => c
    | tokenIn :: _ => c.setBalance tokenIn wallet (c.balanceOf tokenIn wallet - amount_in)

/- ------------------------------------------------------------------ -/
/- Execution state and the Uniswap v2 execution model                 -/
/- (tradeexecutor/ethereum/uniswap_v2_execution.py)                   -/
/- ------------------------------------------------------------------ -/

/-- Trade lifecycle status (spec.md section 3:
planned, started, broadcasted, success, failed;
tradeexecutor.state.trade.TradeStatus). -/
inductive TradeStatus
  | planned
  | started
  | broadcasted
  | success
  | failed
  deriving DecidableEq, Repr

/-- A blockchain transaction owned by a trade
(tradeexecutor.state.blockhain_transaction.BlockchainTransaction as the
repair procedure reads it): the broadcast hash and, once confirmed, the
resolved success/failure outcome. -/
structure BlockchainTransaction where
  tx_hash : Nat
  outcome : Option Bool
  deriving DecidableEq, Repr

/-- A logical trade (tradeexecutor.state.trade.TradeExecution as the
execution model reads and writes it): status, owned blockchain
transactions, optional repair timestamp, free-text notes.  Python's
falsy empty notes (None or the empty string) are modelled as the empty
string. -/
structure TradeExecution where
  status : TradeStatus
  blockchain_transactions : List BlockchainTransaction
  repaired_at : Option Nat
  notes : String
  deriving DecidableEq, Repr

/-- Modelled from the spec: a trade is unfinished when it was broadcast but
no outcome was resolved (TradeExecution.is_unfinished, defined in
tradeexecutor/state/trade.py which is not among the available sources;
spec.md section 4.3: status broadcasted with no resolved outcome). -/
def TradeExecution.is_unfinished (t : TradeExecution) : Bool :=
  t.status == TradeStatus.broadcasted

/-- An open position holding trades
(tradeexecutor.state.position.TradingPosition; the trades dict is read by
values, modelled as a list). -/
structure TradingPosition where
  trades : List TradeExecution
  deriving DecidableEq, Repr

/-- The portfolio's open positions (tradeexecutor.state.portfolio.Portfolio,
open_positions read by values). -/
structure Portfolio where
  open_positions : List TradingPosition
  deriving DecidableEq, Repr

/-- The whole persisted state (tradeexecutor.state.state.State). -/
structure ExecState where
  portfolio : Portfolio
  deriving DecidableEq, Repr

/-- All trades of all open positions, in scan order. -/
def ExecState.openTrades (s : ExecState) : List TradeExecution :=
  s.portfolio.open_positions.flatMap (fun p => p.trades)

/-- Failures of Python assert statements in the execution model. -/
inductive ExecError
  | assertionError
  deriving DecidableEq, Repr

/-- The Uniswap v2 execution model configuration
(UniswapV2ExecutionModel.__init__): confirmation block count and
confirmation timeout may be set to non-positive values, hence Int;
the timeout is in seconds of the datetime.timedelta. -/
structure UniswapV2ExecutionModel where
  confirmation_block_count : Int
  confirmation_timeout : Int
  stop_on_execution_failure : Bool
  deriving DecidableEq, Repr

/-- Modelled from the spec: resolve one trade's outcome from the receipts
actually found on chain (resolve_trades in tradeexecutor/ethereum/
execution.py, not among the available sources; spec.md sections 3 and 4.3).
Every owned transaction gets its receipt's outcome; the trade is success
iff every owned transaction resolved successful, otherwise failed.  The
receipts oracle maps a transaction hash to its confirmed success flag. -/
def resolveTradeFromReceipts (receipts : Nat → Bool) (t : TradeExecution) :
    TradeExecution :=
  let txs := t.blockchain_transactions.map
    (fun tx => { tx with outcome := some (receipts tx.tx_hash) })
  { t with
    status := if txs.all (fun tx => tx.outcome == some true) then
        TradeStatus.success else TradeStatus.failed
    blockchain_transactions := txs }

/-- The repair applied to one unfinished trade
(body of the loop in UniswapV2ExecutionModel.repair_unconfirmed_trades):
resolve success/failure from the found receipts, stamp the repair
timestamp, and set the explanatory note only when no note exists yet. -/
def repairTrade (receipts : Nat → Bool) (now : Nat) (t : TradeExecution) :
    TradeExecution :=
  let resolved := resolveTradeFromReceipts receipts t
  { resolved with
    repaired_at := some now
    notes := if t.notes == "" then "Failed broadcast repaired" else t.notes }

/-- One step of the repair scan: an unfinished trade (status broadcasted, as
the source asserts) is re-resolved and collected; any other trade is left
untouched.  The source's assertion that wait_trades_to_complete returned
receipts (len(receipt_data) > 0) fails when a broadcasted trade owns no
transactions. -/
def repairScanTrade (receipts : Nat → Bool) (now : Nat) (t : TradeExecution) :
    Except ExecError (TradeExecution × List TradeExecution) :=
  if t.is_unfinished then
    if t.blockchain_transactions.isEmpty then .error .assertionError
    else
      let t' := repairTrade receipts now t
      .ok (t', [t'])
  else .ok (t, [])

/-- Repair scan over a position's trades, collecting the repaired ones in
order; the first failing assertion aborts the whole call, as a raised
AssertionError would. -/
def repairScanTrades (receipts : Nat → Bool) (now : Nat) :
    List TradeExecution → Except ExecError (List TradeExecution × List TradeExecution)
  | [] => .ok ([], [])
  | t :: ts =>
    match repairScanTrade receipts now t with
    | .error e => .error e
    | .ok (t', r) =>
      match repairScanTrades receipts now ts with
      | .error e => .error e
      | .ok (ts', rs) => .ok (t' :: ts', r ++ rs)

/-- Repair scan over all open positions. -/
def repairScanPositions (receipts : Nat → Bool) (now : Nat) :
    List TradingPosition → Except ExecError (List TradingPosition × List TradeExecution)
  | [] => .ok ([], [])
  | p :: ps =>
    match repairScanTrades receipts now p.trades with
    | .error e => .error e
    | .ok (ts', r) =>
      match repairScanPositions receipts now ps with
      | .error e => .error e
      | .ok (ps', rs) => .ok ({ trades := ts' } :: ps', r ++ rs)

/-- Repair unconfirmed trades
(UniswapV2ExecutionModel.repair_unconfirmed_trades): assert the
confirmation timeout is positive; on any chain other than Ethereum Tester
(chain id 61) additionally assert the confirmation block count is positive;
then scan all open positions' trades, re-resolve each unfinished one from
the receipts found on chain, stamp it and collect it.  Returns the updated
state and the list of repaired trades. -/
def UniswapV2ExecutionModel.repair_unconfirmed_trades
    (em : UniswapV2ExecutionModel) (chain_id : Nat) (receipts : Nat → Bool)
    (now : Nat) (state : ExecState) :
    Except ExecError (ExecState × List TradeExecution) :=
  if em.confirmation_timeout ≤ 0 then .error .assertionError
  else if chain_id ≠ 61 ∧ em.confirmation_block_count ≤ 0 then .error .assertionError
  else
    match repairScanPositions receipts now state.portfolio.open_positions with
    | .error e => .error e
    | .ok (ps', repaired) => .ok ({ portfolio := { open_positions := ps' } }, repaired)

/-- Execute the trades determined by the algo
(UniswapV2ExecutionModel.execute_trades).  The external collaborators it
drives, State.start_trades, UniswapV2SimpleRoutingModel.setup_trades,
broadcast_and_resolve and freeze_position_on_failed_trade, live in files
not among the available sources and are passed as explicit state
transformers over the state and the trade batch (the Python code mutates
the same objects in place).  On any chain other than Ethereum Tester
(chain id 61) a non-positive confirmation block count fails the source's
assert.  The Python function body ends after the freeze call with no
return statement, so its value is None: the second component of the ok
result is the returned value, always none. -/
def UniswapV2ExecutionModel.execute_trades
    (em : UniswapV2ExecutionModel) (chain_id : Nat)
    (start_trades : ExecState → List TradeExecution → ExecState × List TradeExecution)
    (setup_trades : UniswapV2RoutingState → List TradeExecution →
      UniswapV2RoutingState × List TradeExecution)
    (broadcast_and_resolve : ExecState → List TradeExecution →
      ExecState × List TradeExecution)
    (freeze_position_on_failed_trade : ExecState → List TradeExecution →
      ExecState × List TradeExecution)
    (state : ExecState) (trades : List TradeExecution)
    (routing_state : UniswapV2RoutingState) :
    Except ExecError
      ((ExecState × List TradeExecution × UniswapV2RoutingState) ×
        Option (List TradeExecution × List TradeExecution)) :=
  let w1 := start_trades state trades
  if chain_id ≠ 61 ∧ em.confirmation_block_count ≤ 0 then .error .assertionError
  else
    let w2 := setup_trades routing_state w1.2
    let w3 := broadcast_and_resolve w1.1 w2.2
    let w4 := freeze_position_on_failed_trade w3.1 w3.2
    .ok ((w4.1, w4.2, w2.1), none)

/- ------------------------------------------------------------------ -/
/- Concrete fixtures (mirroring tests/ganache/test_uniswap_v2_routing -/
/- .py: BUSD reserve, Cake target, WBNB intermediary on PancakeSwap)  -/
/- ------------------------------------------------------------------ -/

/-- The hot wallet address of the test session. -/
def testWallet : String := "0xwallet"

/-- BUSD, the reserve currency of the test session. -/
def testBusd : AssetIdentifier := ⟨56, "0xbusd", "BUSD", 18⟩

/-- Cake, the target asset of the test session. -/
def testCake : AssetIdentifier := ⟨56, "0xcake", "Cake", 18⟩

/-- WBNB, the intermediary token of the test session. -/
def testWbnb : AssetIdentifier := ⟨56, "0xwbnb", "WBNB", 18⟩

/-- The direct Cake-BUSD pair. -/
def testCakeBusdPair : TradingPairIdentifier :=
  ⟨testCake, testBusd, "0xpoolcakebusd", 1000, "0xfactory"⟩

/-- The Cake-WBNB pair of a three-leg trade. -/
def testCakeBnbPair : TradingPairIdentifier :=
  ⟨testCake, testWbnb, "0xpoolcakebnb", 1002, "0xfactory"⟩

/-- The WBNB-BUSD intermediary pair configured in the routing table. -/
def testBnbBusdPair : TradingPairIdentifier :=
  ⟨testWbnb, testBusd, "0xpoolbnbbusd", 1001, "0xfactory"⟩

/-- A routing model with one factory/router entry and WBNB as the only
allowed intermediary, as in the test fixture routing_model. -/
def testRoutingModel : UniswapV2SimpleRoutingModel :=
  ⟨[("0xfactory", "0xrouter", "0xinithash")],
   [("0xwbnb", "0xpoolbnbbusd")], "0xbusd", ChainId.bsc, 25⟩

/-- A chain where the test wallet holds 10000 BUSD units and granted no
allowances yet. -/
def testChain : Chain := ⟨[(("0xbusd", "0xwallet"), 10000)], []⟩

/-- A pricing collaborator for the fixtures: quote the input amount back. -/
def testQuote : List String → Nat → Nat := fun _ n => n

/- ------------------------------------------------------------------ -/
/- Theorems                                                           -/
/- ------------------------------------------------------------------ -/

/-- C9.  For every supported routing type, create_uniswap_v2_compatible_routing
raises MismatchReserveCurrency exactly when the given reserve currency is not
the one named by the routing type, and otherwise returns a
UniswapV2SimpleRoutingModel built from that exchange's factory/router map,
allowed intermediary pairs, reserve token address, chain id and trading
fee. -/
theorem create_uniswap_v2_compatible_routing_reserve_check
    (routing_type : TradeRouting) (reserve_currency : ReserveCurrency) :
    (create_uniswap_v2_compatible_routing routing_type reserve_currency =
        Except.error RoutingDataError.mismatchReserveCurrency ↔
      reserve_currency ≠ reserve_currency_named_by routing_type) ∧
    (reserve_currency = reserve_currency_named_by routing_type →
      ∃ params : RoutingData,
        default_routing_parameters_for routing_type reserve_currency = Except.ok params ∧
        create_uniswap_v2_compatible_routing routing_type reserve_currency =
          Except.ok ⟨params.factory_router_map, params.allowed_intermediary_pairs,
            params.reserve_token_address, params.chain_id, params.trading_fee⟩) := by
  cases routing_type <;> cases reserve_currency <;>
    first
      | exact ⟨by decide, fun h => ⟨_, rfl, rfl⟩⟩
      | exact ⟨by decide, fun h => by cases h⟩

/-- Witness for C9: PancakeSwap BUSD routing with a USDC reserve raises
MismatchReserveCurrency; with the BUSD reserve it returns the model built
from the pancake default parameters. -/
theorem create_uniswap_v2_compatible_routing_reserve_check_witness :
    create_uniswap_v2_compatible_routing TradeRouting.pancakeswap_busd ReserveCurrency.usdc =
      Except.error RoutingDataError.mismatchReserveCurrency ∧
    (∃ params : RoutingData,
      default_routing_parameters_for TradeRouting.pancakeswap_busd ReserveCurrency.busd =
        Except.ok params ∧
      create_uniswap_v2_compatible_routing TradeRouting.pancakeswap_busd ReserveCurrency.busd =
        Except.ok ⟨params.factory_router_map, params.allowed_intermediary_pairs,
          params.reserve_token_address, params.chain_id, params.trading_fee⟩) :=
  ⟨(create_uniswap_v2_compatible_routing_reserve_check TradeRouting.pancakeswap_busd
      ReserveCurrency.usdc).1.mpr (by decide),
   (create_uniswap_v2_compatible_routing_reserve_check TradeRouting.pancakeswap_busd
      ReserveCurrency.busd).2 rfl⟩

/-- C10.  For every routing type and reserve currency accepted by the live
routing constructor, get_backtest_routing_model returns a
BacktestRoutingModel whose factory/router map, allowed intermediary pairs and
reserve token address are identical to those of the live
UniswapV2SimpleRoutingModel produced for the same inputs, and
get_routing_model dispatches to the backtest model exactly when the execution
mode is backtesting (and to the live model otherwise). -/
theorem get_backtest_routing_model_copies_live_parameters
    (routing_type : TradeRouting) (reserve_currency : ReserveCurrency)
    (m : UniswapV2SimpleRoutingModel)
    (h : create_uniswap_v2_compatible_routing routing_type reserve_currency = Except.ok m)
    (execution_context : ExecutionContext) :
    get_backtest_routing_model routing_type reserve_currency =
      Except.ok ⟨m.factory_router_map, m.allowed_intermediary_pairs,
        m.reserve_token_address⟩ ∧
    get_routing_model execution_context routing_type reserve_currency =
      (if execution_context.mode = ExecutionMode.backtesting then
        Except.ok (RoutingModel.backtest ⟨m.factory_router_map,
          m.allowed_intermediary_pairs, m.reserve_token_address⟩)
      else Except.ok (RoutingModel.live m)) := by
  have hb : get_backtest_routing_model routing_type reserve_currency =
      Except.ok ⟨m.factory_router_map, m.allowed_intermediary_pairs,
        m.reserve_token_address⟩ := by
    unfold get_backtest_routing_model
    rw [h]
    rfl
  refine ⟨hb, ?_⟩
  by_cases hm : execution_context.mode = ExecutionMode.backtesting <;>
    simp [get_routing_model, hm, hb, h, Except.map]

/-- Witness for C10: quickswap USDC routing in backtesting mode. -/
theorem get_backtest_routing_model_copies_live_parameters_witness :
    get_backtest_routing_model TradeRouting.quickswap_usdc ReserveCurrency.usdc =
      Except.ok ⟨[("0x5757371414417b8C6CAad45bAeF941aBc7d3Ab32",
          "0xa5E0829CaCEd8fFDD4De3c43696c57F7D7A678ff",
          "0x96e8ac4277198ff8b6f785478aa9a39f403cb768dd02cbee326c3e7da348845f")],
        [("0x0d500b1d8e8ef31e21c99d1db9a6444d3adf1270",
          "0x6e7a5fafcec6bb1e78bae2a1f0b612012bf14827")],
        "0x2791bca1f2de4661ed88a30c99a7a9449aa84174"⟩ ∧
    get_routing_model ⟨ExecutionMode.backtesting⟩ TradeRouting.quickswap_usdc
        ReserveCurrency.usdc =
      Except.ok (RoutingModel.backtest
        ⟨[("0x5757371414417b8C6CAad45bAeF941aBc7d3Ab32",
          "0xa5E0829CaCEd8fFDD4De3c43696c57F7D7A678ff",
          "0x96e8ac4277198ff8b6f785478aa9a39f403cb768dd02cbee326c3e7da348845f")],
        [("0x0d500b1d8e8ef31e21c99d1db9a6444d3adf1270",
          "0x6e7a5fafcec6bb1e78bae2a1f0b612012bf14827")],
        "0x2791bca1f2de4661ed88a30c99a7a9449aa84174"⟩) := by
  have h := get_backtest_routing_model_copies_live_parameters
    TradeRouting.quickswap_usdc ReserveCurrency.usdc
    ⟨[("0x5757371414417b8C6CAad45bAeF941aBc7d3Ab32",
      "0xa5E0829CaCEd8fFDD4De3c43696c57F7D7A678ff",
      "0x96e8ac4277198ff8b6f785478aa9a39f403cb768dd02cbee326c3e7da348845f")],
      [("0x0d500b1d8e8ef31e21c99d1db9a6444d3adf1270",
        "0x6e7a5fafcec6bb1e78bae2a1f0b612012bf14827")],
      "0x2791bca1f2de4661ed88a30c99a7a9449aa84174", ChainId.polygon, 30⟩
    (by decide) ⟨ExecutionMode.backtesting⟩
  exact ⟨h.1, by simpa using h.2⟩

/-- C1.  The trade execution orchestrator's execute_trades, whenever it
completes without raising, returns the Python value None: it never returns
the pair of succeeded and failed trade lists that its own docstring and the
spec contract promise (the function body has no return statement). -/
theorem execute_trades_never_returns_trade_lists
    (em : UniswapV2ExecutionModel) (chain_id : Nat)
    (start_trades : ExecState → List TradeExecution → ExecState × List TradeExecution)
    (setup_trades : UniswapV2RoutingState → List TradeExecution →
      UniswapV2RoutingState × List TradeExecution)
    (broadcast_and_resolve : ExecState → List TradeExecution →
      ExecState × List TradeExecution)
    (freeze_position_on_failed_trade : ExecState → List TradeExecution →
      ExecState × List TradeExecution)
    (state : ExecState) (trades : List TradeExecution)
    (routing_state : UniswapV2RoutingState)
    (w : ExecState × List TradeExecution × UniswapV2RoutingState)
    (ret : Option (List TradeExecution × List TradeExecution))
    (h : em.execute_trades chain_id start_trades setup_trades broadcast_and_resolve
      freeze_position_on_failed_trade state trades routing_state = Except.ok (w, ret)) :
    ret = none := by
  unfold UniswapV2ExecutionModel.execute_trades at h
  by_cases hc : chain_id ≠ 61 ∧ em.confirmation_block_count ≤ 0
  · simp [hc] at h
  · simp only [if_neg hc] at h
    exact (congrArg Prod.snd (Except.ok.inj h)).symm

/-- Witness for C1: a concrete invocation on Ethereum Tester with identity
collaborators completes and returns None. -/
theorem execute_trades_never_returns_trade_lists_witness :
    UniswapV2ExecutionModel.execute_trades ⟨6, 300, true⟩ 61
        (fun s t => (s, t)) (fun r t => (r, t)) (fun s t => (s, t)) (fun s t => (s, t))
        ⟨⟨[]⟩⟩ [] ⟨[], 0⟩ =
      Except.ok ((⟨⟨[]⟩⟩, [], ⟨[], 0⟩), none) ∧
    (none : Option (List TradeExecution × List TradeExecution)) = none :=
  ⟨rfl, execute_trades_never_returns_trade_lists ⟨6, 300, true⟩ 61
    (fun s t => (s, t)) (fun r t => (r, t)) (fun s t => (s, t)) (fun s t => (s, t))
    ⟨⟨[]⟩⟩ [] ⟨[], 0⟩ (⟨⟨[]⟩⟩, [], ⟨[], 0⟩) none rfl⟩

/-- C5 counterexample.  On Ethereum Tester (chain id 61) a repair call with a
non-positive confirmation-block depth but a positive timeout does not fail
with an assertion error: it completes, contradicting the claim that the
operation asserts on a non-positive confirmation depth regardless of which
chain it is connected to. -/
theorem repair_unconfirmed_trades_chain61_counterexample :
    (UniswapV2ExecutionModel.mk 0 300 true).confirmation_block_count ≤ 0 ∧
    UniswapV2ExecutionModel.repair_unconfirmed_trades ⟨0, 300, true⟩ 61
        (fun _ => true) 0 ⟨⟨[]⟩⟩ =
      Except.ok (⟨⟨[]⟩⟩, []) :=
  ⟨by decide, rfl⟩

/-- C5 (amended).  repair_unconfirmed_trades fails fast with an assertion
error, before re-querying any transaction, whenever the confirmation timeout
is non-positive; a non-positive confirmation-block depth also fails fast, but
only when the connected chain is not Ethereum Tester (chain id 61). -/
theorem repair_unconfirmed_trades_assert_nonpositive_settings
    (em : UniswapV2ExecutionModel) (chain_id : Nat) (receipts : Nat → Bool)
    (now : Nat) (state : ExecState)
    (h : em.confirmation_timeout ≤ 0 ∨
      (chain_id ≠ 61 ∧ em.confirmation_block_count ≤ 0)) :
    em.repair_unconfirmed_trades chain_id receipts now state =
      Except.error ExecError.assertionError := by
  unfold UniswapV2ExecutionModel.repair_unconfirmed_trades
  rcases h with h | h
  · rw [if_pos h]
  · by_cases ht : em.confirmation_timeout ≤ 0
    · rw [if_pos ht]
    · rw [if_neg ht, if_pos h]

/-- Witness for the amended C5: a repair on BNB chain (id 56) with a negative
timeout asserts. -/
theorem repair_unconfirmed_trades_assert_nonpositive_settings_witness :
    ((UniswapV2ExecutionModel.mk 6 (-1) true).confirmation_timeout ≤ 0 ∨
      ((56 : Nat) ≠ 61 ∧ (UniswapV2ExecutionModel.mk 6 (-1) true).confirmation_block_count ≤ 0)) ∧
    UniswapV2ExecutionModel.repair_unconfirmed_trades ⟨6, -1, true⟩ 56
        (fun _ => true) 0 ⟨⟨[]⟩⟩ =
      Except.error ExecError.assertionError :=
  ⟨Or.inl (by decide),
   repair_unconfirmed_trades_assert_nonpositive_settings ⟨6, -1, true⟩ 56
     (fun _ => true) 0 ⟨⟨[]⟩⟩ (Or.inl (by decide))⟩

/-- Inversion of one repair-scan step: when it does not fail the assertion,
an unfinished trade is replaced by its repair and collected, any other trade
passes through untouched. -/
theorem repairScanTrade_ok (receipts : Nat → Bool) (now : Nat)
    (t t' : TradeExecution) (r : List TradeExecution)
    (h : repairScanTrade receipts now t = .ok (t', r)) :
    t' = (if t.is_unfinished then repairTrade receipts now t else t) ∧
    r = (if t.is_unfinished then [repairTrade receipts now t] else []) := by
  unfold repairScanTrade at h
  by_cases hu : t.is_unfinished
  · rw [if_pos hu] at h
    by_cases he : t.blockchain_transactions.isEmpty
    · rw [if_pos he] at h; exact absurd h (by simp)
    · rw [if_neg he] at h
      simp only [Except.ok.injEq, Prod.mk.injEq] at h
      simp [hu, h.1.symm, h.2.symm]
  · rw [if_neg hu] at h
    simp only [Except.ok.injEq, Prod.mk.injEq] at h
    simp [hu, h.1.symm, h.2.symm]

/-- Characterization of a successful repair scan over a trade list: the
output trades are the input trades with each unfinished one repaired, and
the collected list is exactly the repairs of the unfinished ones, in
order. -/
theorem repairScanTrades_ok_characterization (receipts : Nat → Bool) (now : Nat)
    (ts ts' rep : List TradeExecution)
    (h : repairScanTrades receipts now ts = .ok (ts', rep)) :
    ts' = ts.map (fun t => if t.is_unfinished then repairTrade receipts now t else t) ∧
    rep = (ts.filter (fun t => t.is_unfinished)).map (repairTrade receipts now) := by
  induction ts generalizing ts' rep with
  | nil =>
    simp only [repairScanTrades, Except.ok.injEq, Prod.mk.injEq] at h
    simp [h.1.symm, h.2.symm]
  | cons t ts ih =>
    rw [repairScanTrades] at h
    cases hscan : repairScanTrade receipts now t with
    | error e => rw [hscan] at h; exact absurd h (by simp)
    | ok pr =>
      obtain ⟨t1, r1⟩ := pr
      rw [hscan] at h
      cases hrec : repairScanTrades receipts now ts with
      | error e => rw [hrec] at h; exact absurd h (by simp)
      | ok qr =>
        obtain ⟨ts1, rs1⟩ := qr
        rw [hrec] at h
        simp only [Except.ok.injEq, Prod.mk.injEq] at h
        obtain ⟨hts, hrep⟩ := h
        obtain ⟨ht1, hr1⟩ := repairScanTrade_ok receipts now t t1 r1 hscan
        obtain ⟨hts1, hrs1⟩ := ih ts1 rs1 hrec
        subst hts hrep ht1 hr1 hts1 hrs1
        by_cases hu : t.is_unfinished <;> simp [hu]

/-- A repaired trade is never unfinished: its status is resolved to success
or failed. -/
theorem repairTrade_not_unfinished (receipts : Nat → Bool) (now : Nat)
    (t : TradeExecution) : (repairTrade receipts now t).is_unfinished = false := by
  simp only [repairTrade, resolveTradeFromReceipts, TradeExecution.is_unfinished]
  split <;> rfl

/-- A successful repair scan leaves no unfinished trade in its output. -/
theorem repairScanTrades_output_not_unfinished (receipts : Nat → Bool) (now : Nat)
    (ts ts' rep : List TradeExecution)
    (h : repairScanTrades receipts now ts = .ok (ts', rep)) :
    ∀ t' ∈ ts', t'.is_unfinished = false := by
  obtain ⟨hts, -⟩ := repairScanTrades_ok_characterization receipts now ts ts' rep h
  subst hts
  intro t' ht'
  simp only [List.mem_map] at ht'
  obtain ⟨t, -, rfl⟩ := ht'
  by_cases hu : t.is_unfinished
  · simp [hu, repairTrade_not_unfinished]
  · simp [hu]

/-- A scan over trades none of which is unfinished is the identity and
collects nothing. -/
theorem repairScanTrades_no_unfinished (receipts : Nat → Bool) (now : Nat)
    (ts : List TradeExecution) (h : ∀ t ∈ ts, t.is_unfinished = false) :
    repairScanTrades receipts now ts = .ok (ts, []) := by
  induction ts with
  | nil => rfl
  | cons t ts ih =>
    have ht := h t (List.mem_cons_self t ts)
    have hts := ih (fun x hx => h x (List.mem_cons_of_mem t hx))
    rw [repairScanTrades, repairScanTrade, ht]
    simp [hts]

/-- Characterization of a successful repair scan over the open positions. -/
theorem repairScanPositions_ok_characterization (receipts : Nat → Bool) (now : Nat)
    (ps ps' : List TradingPosition) (rep : List TradeExecution)
    (h : repairScanPositions receipts now ps = .ok (ps', rep)) :
    ps' = ps.map (fun p =>
      ⟨p.trades.map (fun t => if t.is_unfinished then repairTrade receipts now t else t)⟩) ∧
    rep = (ps.flatMap (fun p => p.trades.filter (fun t => t.is_unfinished))).map
      (repairTrade receipts now) := by
  induction ps generalizing ps' rep with
  | nil =>
    simp only [repairScanPositions, Except.ok.injEq, Prod.mk.injEq] at h
    simp [h.1.symm, h.2.symm]
  | cons p ps ih =>
    rw [repairScanPositions] at h
    cases hscan : repairScanTrades receipts now p.trades with
    | error e => rw [hscan] at h; exact absurd h (by simp)
    | ok pr =>
      obtain ⟨ts1, r1⟩ := pr
      rw [hscan] at h
      cases hrec : repairScanPositions receipts now ps with
      | error e => rw [hrec] at h; exact absurd h (by simp)
      | ok qr =>
        obtain ⟨ps1, rs1⟩ := qr
        rw [hrec] at h
        simp only [Except.ok.injEq, Prod.mk.injEq] at h
        obtain ⟨hps, hrep⟩ := h
        obtain ⟨hts1, hr1⟩ := repairScanTrades_ok_characterization receipts now
          p.trades ts1 r1 hscan
        obtain ⟨hps1, hrs1⟩ := ih ps1 rs1 hrec
        subst hps hrep hts1 hr1 hps1 hrs1
        simp

/-- A successful repair scan leaves no unfinished trade in any position. -/
theorem repairScanPositions_output_not_unfinished (receipts : Nat → Bool) (now : Nat)
    (ps ps' : List TradingPosition) (rep : List TradeExecution)
    (h : repairScanPositions receipts now ps = .ok (ps', rep)) :
    ∀ p' ∈ ps', ∀ t' ∈ p'.trades, t'.is_unfinished = false := by
  obtain ⟨hps, -⟩ := repairScanPositions_ok_characterization receipts now ps ps' rep h
  subst hps
  intro p' hp'
  simp only [List.mem_map] at hp'
  obtain ⟨p, -, rfl⟩ := hp'
  intro t' ht'
  simp only [List.mem_map] at ht'
  obtain ⟨t, -, rfl⟩ := ht'
  by_cases hu : t.is_unfinished
  · simp [hu, repairTrade_not_unfinished]
  · simp [hu]

/-- A scan over positions with no unfinished trades is the identity and
collects nothing. -/
theorem repairScanPositions_no_unfinished (receipts : Nat → Bool) (now : Nat)
    (ps : List TradingPosition)
    (h : ∀ p ∈ ps, ∀ t ∈ p.trades, t.is_unfinished = false) :
    repairScanPositions receipts now ps = .ok (ps, []) := by
  induction ps with
  | nil => rfl
  | cons p ps ih =>
    have hp := repairScanTrades_no_unfinished receipts now p.trades
      (h p (List.mem_cons_self p ps))
    have hps := ih (fun x hx => h x (List.mem_cons_of_mem p hx))
    rw [repairScanPositions, hp, hps]
    rfl

/-- Filtering all open trades agrees with filtering each position's trades. -/
theorem filter_flatMap_trades (ps : List TradingPosition) (q : TradeExecution → Bool) :
    (ps.flatMap (fun p => p.trades)).filter q =
      ps.flatMap (fun p => p.trades.filter q) := by
  induction ps with
  | nil => rfl
  | cons p ps ih =>
    simp [List.filter_append, ih, List.flatMap_def]
    rfl

/-- C6.  Every trade repair_unconfirmed_trades resolves is stamped and
collected: the returned repaired list is exactly the repair of each
unfinished open trade, and the repair of a trade stamps its repair
timestamp with the repair time and sets the explanatory note only when the
trade's notes field is empty — a trade whose notes field is already
non-empty keeps its notes unchanged. -/
theorem repair_unconfirmed_trades_stamps_and_preserves_notes
    (em : UniswapV2ExecutionModel) (chain_id : Nat) (receipts : Nat → Bool)
    (now : Nat) (state st' : ExecState) (rep : List TradeExecution)
    (h : em.repair_unconfirmed_trades chain_id receipts now state = .ok (st', rep)) :
    rep = (state.openTrades.filter (fun t => t.is_unfinished)).map
        (repairTrade receipts now) ∧
    ∀ t : TradeExecution,
      (repairTrade receipts now t).repaired_at = some now ∧
      (t.notes = "" → (repairTrade receipts now t).notes = "Failed broadcast repaired") ∧
      (t.notes ≠ "" → (repairTrade receipts now t).notes = t.notes) := by
  constructor
  · unfold UniswapV2ExecutionModel.repair_unconfirmed_trades at h
    by_cases h1 : em.confirmation_timeout ≤ 0
    · rw [if_pos h1] at h; exact absurd h (by simp)
    · rw [if_neg h1] at h
      by_cases h2 : chain_id ≠ 61 ∧ em.confirmation_block_count ≤ 0
      · rw [if_pos h2] at h; exact absurd h (by simp)
      · rw [if_neg h2] at h
        cases hscan : repairScanPositions receipts now state.portfolio.open_positions with
        | error e => rw [hscan] at h; exact absurd h (by simp)
        | ok pr =>
          obtain ⟨ps', rep'⟩ := pr
          rw [hscan] at h
          simp only [Except.ok.injEq, Prod.mk.injEq] at h
          obtain ⟨-, hrep⟩ := h
          obtain ⟨-, hr⟩ := repairScanPositions_ok_characterization receipts now _ ps' rep' hscan
          rw [← hrep, hr, ExecState.openTrades, filter_flatMap_trades]
  · intro t
    refine ⟨rfl, fun hn => ?_, fun hn => ?_⟩
    · simp [repairTrade, hn]
    · simp [repairTrade, hn]

/-- Witness for C6: one position with an unfinished noteless trade, an
unfinished trade carrying an operator note, and a finished trade.  The first
gets the explanatory note, the second keeps its note, both are stamped, the
third is untouched. -/
theorem repair_unconfirmed_trades_stamps_and_preserves_notes_witness :
    UniswapV2ExecutionModel.repair_unconfirmed_trades ⟨6, 300, true⟩ 56 (fun _ => true) 7
        ⟨⟨[⟨[⟨TradeStatus.broadcasted, [⟨1, none⟩], none, ""⟩,
            ⟨TradeStatus.broadcasted, [⟨2, none⟩], none, "operator"⟩,
            ⟨TradeStatus.success, [⟨3, some true⟩], none, ""⟩]⟩]⟩⟩ =
      Except.ok
        (⟨⟨[⟨[⟨TradeStatus.success, [⟨1, some true⟩], some 7, "Failed broadcast repaired"⟩,
             ⟨TradeStatus.success, [⟨2, some true⟩], some 7, "operator"⟩,
             ⟨TradeStatus.success, [⟨3, some true⟩], none, ""⟩]⟩]⟩⟩,
         [⟨TradeStatus.success, [⟨1, some true⟩], some 7, "Failed broadcast repaired"⟩,
          ⟨TradeStatus.success, [⟨2, some true⟩], some 7, "operator"⟩]) ∧
    [⟨TradeStatus.success, [⟨1, some true⟩], some 7, "Failed broadcast repaired"⟩,
     ⟨TradeStatus.success, [⟨2, some true⟩], some 7, "operator"⟩] =
      ((⟨⟨[⟨[⟨TradeStatus.broadcasted, [⟨1, none⟩], none, ""⟩,
           ⟨TradeStatus.broadcasted, [⟨2, none⟩], none, "operator"⟩,
           ⟨TradeStatus.success, [⟨3, some true⟩], none, ""⟩]⟩]⟩⟩ : ExecState).openTrades.filter
          (fun t => t.is_unfinished)).map (repairTrade (fun _ => true) 7) :=
  ⟨rfl,
   (repair_unconfirmed_trades_stamps_and_preserves_notes ⟨6, 300, true⟩ 56 (fun _ => true) 7
     ⟨⟨[⟨[⟨TradeStatus.broadcasted, [⟨1, none⟩], none, ""⟩,
         ⟨TradeStatus.broadcasted, [⟨2, none⟩], none, "operator"⟩,
         ⟨TradeStatus.success, [⟨3, some true⟩], none, ""⟩]⟩]⟩⟩
     ⟨⟨[⟨[⟨TradeStatus.success, [⟨1, some true⟩], some 7, "Failed broadcast repaired"⟩,
         ⟨TradeStatus.success, [⟨2, some true⟩], some 7, "operator"⟩,
         ⟨TradeStatus.success, [⟨3, some true⟩], none, ""⟩]⟩]⟩⟩
     [⟨TradeStatus.success, [⟨1, some true⟩], some 7, "Failed broadcast repaired"⟩,
      ⟨TradeStatus.success, [⟨2, some true⟩], some 7, "operator"⟩] rfl).1⟩

/-- C7.  repair_unconfirmed_trades is idempotent: after a successful run, a
second run (with any receipts oracle and any repair time) changes nothing —
it returns the state unchanged and repairs no trade, because every trade
resolved by the first run is no longer in the broadcasted status and only
broadcasted trades are processed. -/
theorem repair_unconfirmed_trades_idempotent
    (em : UniswapV2ExecutionModel) (chain_id : Nat) (receipts receipts2 : Nat → Bool)
    (now now2 : Nat) (state st1 : ExecState) (rep1 : List TradeExecution)
    (h : em.repair_unconfirmed_trades chain_id receipts now state = .ok (st1, rep1)) :
    em.repair_unconfirmed_trades chain_id receipts2 now2 st1 = .ok (st1, []) := by
  unfold UniswapV2ExecutionModel.repair_unconfirmed_trades at h ⊢
  by_cases h1 : em.confirmation_timeout ≤ 0
  · rw [if_pos h1] at h; exact absurd h (by simp)
  · rw [if_neg h1] at h ⊢
    by_cases h2 : chain_id ≠ 61 ∧ em.confirmation_block_count ≤ 0
    · rw [if_pos h2] at h; exact absurd h (by simp)
    · rw [if_neg h2] at h ⊢
      cases hscan : repairScanPositions receipts now state.portfolio.open_positions with
      | error e => rw [hscan] at h; exact absurd h (by simp)
      | ok pr =>
        obtain ⟨ps', rep'⟩ := pr
        rw [hscan] at h
        simp only [Except.ok.injEq, Prod.mk.injEq] at h
        obtain ⟨hst, -⟩ := h
        have hne := repairScanPositions_output_not_unfinished receipts now _ ps' rep' hscan
        have hfix := repairScanPositions_no_unfinished receipts2 now2 ps' hne
        rw [← hst]
        simp [hfix]

/-- Witness for C7: the second repair run on the repaired state of the C6
scenario, with a different receipts oracle and repair time, returns the same
state and an empty repaired list. -/
theorem repair_unconfirmed_trades_idempotent_witness :
    UniswapV2ExecutionModel.repair_unconfirmed_trades ⟨6, 300, true⟩ 56 (fun _ => true) 7
        ⟨⟨[⟨[⟨TradeStatus.broadcasted, [⟨1, none⟩], none, ""⟩,
            ⟨TradeStatus.broadcasted, [⟨2, none⟩], none, "operator"⟩]⟩]⟩⟩ =
      Except.ok
        (⟨⟨[⟨[⟨TradeStatus.success, [⟨1, some true⟩], some 7, "Failed broadcast repaired"⟩,
             ⟨TradeStatus.success, [⟨2, some true⟩], some 7, "operator"⟩]⟩]⟩⟩,
         [⟨TradeStatus.success, [⟨1, some true⟩], some 7, "Failed broadcast repaired"⟩,
          ⟨TradeStatus.success, [⟨2, some true⟩], some 7, "operator"⟩]) ∧
    UniswapV2ExecutionModel.repair_unconfirmed_trades ⟨6, 300, true⟩ 56 (fun _ => false) 9
        ⟨⟨[⟨[⟨TradeStatus.success, [⟨1, some true⟩], some 7, "Failed broadcast repaired"⟩,
            ⟨TradeStatus.success, [⟨2, some true⟩], some 7, "operator"⟩]⟩]⟩⟩ =
      Except.ok
        (⟨⟨[⟨[⟨TradeStatus.success, [⟨1, some true⟩], some 7, "Failed broadcast repaired"⟩,
             ⟨TradeStatus.success, [⟨2, some true⟩], some 7, "operator"⟩]⟩]⟩⟩, []) :=
  ⟨rfl,
   repair_unconfirmed_trades_idempotent ⟨6, 300, true⟩ 56 (fun _ => true) (fun _ => false) 7 9
     ⟨⟨[⟨[⟨TradeStatus.broadcasted, [⟨1, none⟩], none, ""⟩,
         ⟨TradeStatus.broadcasted, [⟨2, none⟩], none, "operator"⟩]⟩]⟩⟩
     ⟨⟨[⟨[⟨TradeStatus.success, [⟨1, some true⟩], some 7, "Failed broadcast repaired"⟩,
         ⟨TradeStatus.success, [⟨2, some true⟩], some 7, "operator"⟩]⟩]⟩⟩
     [⟨TradeStatus.success, [⟨1, some true⟩], some 7, "Failed broadcast repaired"⟩,
      ⟨TradeStatus.success, [⟨2, some true⟩], some 7, "operator"⟩] rfl⟩

/-- A successful three-leg path is exactly the three given token
addresses. -/
theorem threeLegPath_ok (model : UniswapV2SimpleRoutingModel)
    (first mid last : String) (ip : Option TradingPairIdentifier)
    (path : List String)
    (h : model.threeLegPath first mid last ip = .ok path) :
    path = [first, mid, last] := by
  unfold UniswapV2SimpleRoutingModel.threeLegPath at h
  split at h
  · exact absurd h (by simp)
  · split at h
    · exact absurd h (by simp)
    · split at h
      · exact (Except.ok.inj h).symm
      · exact absurd h (by simp)

/-- A selected path has exactly 2 addresses on the direct branch and exactly
3 on the intermediary branches. -/
theorem selectPath_length (model : UniswapV2SimpleRoutingModel)
    (pair : TradingPairIdentifier) (input_asset : AssetIdentifier)
    (ip : Option TradingPairIdentifier) (path : List String)
    (h : model.selectPath pair input_asset ip = .ok path) :
    path.length = if model.isDirect pair input_asset then 2 else 3 := by
  unfold UniswapV2SimpleRoutingModel.selectPath at h
  unfold UniswapV2SimpleRoutingModel.isDirect
  by_cases h1 : (input_asset == pair.base || input_asset == pair.quote) = true
  · rw [if_pos h1] at h
    by_cases h2 : (pyLower input_asset.address == pyLower model.reserve_token_address ||
        pyLower (if input_asset == pair.base then pair.quote else pair.base).address ==
          pyLower model.reserve_token_address) = true
    · rw [if_pos h2] at h
      have hp := (Except.ok.inj h).symm
      subst hp
      rw [h1, h2]
      rfl
    · rw [if_neg h2] at h
      by_cases h3 : (input_asset == pair.base) = true
      · rw [if_pos h3] at h
        have hp := threeLegPath_ok model _ _ _ _ _ h
        subst hp
        rw [Bool.not_eq_true] at h2
        rw [h1, h2]
        rfl
      · rw [if_neg h3] at h
        exact absurd h (by simp)
  · rw [if_neg h1] at h
    by_cases h4 : (pyLower input_asset.address == pyLower model.reserve_token_address) = true
    · rw [if_pos h4] at h
      have hp := threeLegPath_ok model _ _ _ _ _ h
      subst hp
      rw [Bool.not_eq_true] at h1
      rw [h1]
      rfl
    · rw [if_neg h4] at h
      exact absurd h (by simp)

/-- A routable, funded trade with no cached approval and insufficient
on-chain allowance emits exactly the approval followed by the swap, and
marks the approval sufficient in the Routing State. -/
theorem trade_emits_approve_and_swap (model : UniswapV2SimpleRoutingModel)
    (quote : List String → Nat → Nat) (chain : Chain) (wallet : String)
    (rs : UniswapV2RoutingState) (pair : TradingPairIdentifier)
    (input_asset : AssetIdentifier) (amount : Nat) (check : Bool)
    (ip : Option TradingPairIdentifier) (router : String) (path : List String)
    (hr : model.routerFor pair = some router)
    (hp : model.selectPath pair input_asset ip = .ok path)
    (hamt : (amount == 0) = false)
    (hbg : (check && decide (chain.balanceOf input_asset.address wallet < amount)) = false)
    (hcache : rs.approvals.contains (wallet, router, input_asset.address) = false)
    (hallow : ¬ amount ≤ chain.allowanceOf input_asset.address wallet router) :
    model.trade quote chain wallet rs pair input_asset amount check ip =
      (.ok [⟨rs.next_nonce, .approve input_asset.address router maxApproval⟩,
            ⟨rs.next_nonce + 1, .swap router path amount (quote path amount)⟩],
       ⟨(wallet, router, input_asset.address) :: rs.approvals, rs.next_nonce + 2⟩) := by
  unfold UniswapV2SimpleRoutingModel.trade
  rw [hamt, hr, hp, hbg]
  simp only [Bool.false_eq_true, if_false]
  rw [hcache]
  simp only [Bool.false_eq_true, if_false]
  rw [if_neg hallow]

/-- A trade whose approval is already cached in the Routing State emits the
swap only. -/
theorem trade_cache_hit_swap_only (model : UniswapV2SimpleRoutingModel)
    (quote : List String → Nat → Nat) (chain : Chain) (wallet : String)
    (rs : UniswapV2RoutingState) (pair : TradingPairIdentifier)
    (input_asset : AssetIdentifier) (amount : Nat) (check : Bool)
    (ip : Option TradingPairIdentifier) (router : String) (path : List String)
    (hr : model.routerFor pair = some router)
    (hp : model.selectPath pair input_asset ip = .ok path)
    (hamt : (amount == 0) = false)
    (hbg : (check && decide (chain.balanceOf input_asset.address wallet < amount)) = false)
    (hcache : rs.approvals.contains (wallet, router, input_asset.address) = true) :
    model.trade quote chain wallet rs pair input_asset amount check ip =
      (.ok [⟨rs.next_nonce, .swap router path amount (quote path amount)⟩],
       ⟨rs.approvals, rs.next_nonce + 1⟩) := by
  unfold UniswapV2SimpleRoutingModel.trade
  rw [hamt, hr, hp, hbg]
  simp only [Bool.false_eq_true, if_false]
  rw [hcache]
  simp

/-- A trade with no cached approval but a sufficient live on-chain allowance
emits the swap only and marks the cache. -/
theorem trade_allowance_swap_only (model : UniswapV2SimpleRoutingModel)
    (quote : List String → Nat → Nat) (chain : Chain) (wallet : String)
    (rs : UniswapV2RoutingState) (pair : TradingPairIdentifier)
    (input_asset : AssetIdentifier) (amount : Nat) (check : Bool)
    (ip : Option TradingPairIdentifier) (router : String) (path : List String)
    (hr : model.routerFor pair = some router)
    (hp : model.selectPath pair input_asset ip = .ok path)
    (hamt : (amount == 0) = false)
    (hbg : (check && decide (chain.balanceOf input_asset.address wallet < amount)) = false)
    (hcache : rs.approvals.contains (wallet, router, input_asset.address) = false)
    (hallow : amount ≤ chain.allowanceOf input_asset.address wallet router) :
    model.trade quote chain wallet rs pair input_asset amount check ip =
      (.ok [⟨rs.next_nonce, .swap router path amount (quote path amount)⟩],
       ⟨(wallet, router, input_asset.address) :: rs.approvals, rs.next_nonce + 1⟩) := by
  unfold UniswapV2SimpleRoutingModel.trade
  rw [hamt, hr, hp, hbg]
  simp only [Bool.false_eq_true, if_false]
  rw [hcache]
  simp only [Bool.false_eq_true, if_false]
  rw [if_pos hallow]

/-- C2.  With no prior allowance (no cached approval and an insufficient
on-chain allowance) a routed trade emits exactly 2 transactions — the
approval, then the swap — for any routable pair, direct or three-leg; and a
repeat trade of the same asset within the same Routing State (through any
pair served by the same router) emits exactly 1 transaction, the swap
only. -/
theorem trade_transaction_counts (model : UniswapV2SimpleRoutingModel)
    (quote quote2 : List String → Nat → Nat) (chain chain2 : Chain)
    (wallet : String) (rs : UniswapV2RoutingState)
    (pair pair2 : TradingPairIdentifier) (input_asset : AssetIdentifier)
    (amount amount2 : Nat) (check check2 : Bool)
    (ip ip2 : Option TradingPairIdentifier) (router : String)
    (path path2 : List String)
    (hr : model.routerFor pair = some router)
    (hp : model.selectPath pair input_asset ip = .ok path)
    (hamt : amount ≠ 0)
    (hbal : check = true → ¬ chain.balanceOf input_asset.address wallet < amount)
    (hcache : rs.approvals.contains (wallet, router, input_asset.address) = false)
    (hallow : ¬ amount ≤ chain.allowanceOf input_asset.address wallet router)
    (hr2 : model.routerFor pair2 = some router)
    (hp2 : model.selectPath pair2 input_asset ip2 = .ok path2)
    (hamt2 : amount2 ≠ 0)
    (hbal2 : check2 = true → ¬ chain2.balanceOf input_asset.address wallet < amount2) :
    model.trade quote chain wallet rs pair input_asset amount check ip =
      (.ok [⟨rs.next_nonce, .approve input_asset.address router maxApproval⟩,
            ⟨rs.next_nonce + 1, .swap router path amount (quote path amount)⟩],
       ⟨(wallet, router, input_asset.address) :: rs.approvals, rs.next_nonce + 2⟩) ∧
    model.trade quote2 chain2 wallet
        ⟨(wallet, router, input_asset.address) :: rs.approvals, rs.next_nonce + 2⟩
        pair2 input_asset amount2 check2 ip2 =
      (.ok [⟨rs.next_nonce + 2, .swap router path2 amount2 (quote2 path2 amount2)⟩],
       ⟨(wallet, router, input_asset.address) :: rs.approvals, rs.next_nonce + 3⟩) := by
  have h0 : (amount == 0) = false := by simp [hamt]
  have h02 : (amount2 == 0) = false := by simp [hamt2]
  have hbg : (check && decide (chain.balanceOf input_asset.address wallet < amount)) = false := by
    cases check with
    | false => rfl
    | true => simp [hbal rfl]
  have hbg2 : (check2 && decide (chain2.balanceOf input_asset.address wallet < amount2)) = false := by
    cases check2 with
    | false => rfl
    | true => simp [hbal2 rfl]
  refine ⟨trade_emits_approve_and_swap model quote chain wallet rs pair input_asset amount
    check ip router path hr hp h0 hbg hcache hallow, ?_⟩
  have hc2 : (((wallet, router, input_asset.address) :: rs.approvals).contains
      (wallet, router, input_asset.address)) = true := by simp
  exact trade_cache_hit_swap_only model quote2 chain2 wallet
    ⟨(wallet, router, input_asset.address) :: rs.approvals, rs.next_nonce + 2⟩
    pair2 input_asset amount2 check2 ip2 router path2 hr2 hp2 h02 hbg2 hc2

/-- Witness for C2: the three-leg BUSD trade of the test fixture yields an
approval and a swap; the immediate repeat within the same Routing State
yields the swap only. -/
theorem trade_transaction_counts_witness :
    testRoutingModel.trade testQuote testChain "0xwallet" ⟨[], 0⟩ testCakeBnbPair testBusd
        100 true (some testBnbBusdPair) =
      (.ok [⟨0, .approve "0xbusd" "0xrouter" maxApproval⟩,
            ⟨1, .swap "0xrouter" ["0xbusd", "0xwbnb", "0xcake"] 100 100⟩],
       ⟨[("0xwallet", "0xrouter", "0xbusd")], 2⟩) ∧
    testRoutingModel.trade testQuote testChain "0xwallet"
        ⟨[("0xwallet", "0xrouter", "0xbusd")], 2⟩ testCakeBnbPair testBusd
        100 true (some testBnbBusdPair) =
      (.ok [⟨2, .swap "0xrouter" ["0xbusd", "0xwbnb", "0xcake"] 100 100⟩],
       ⟨[("0xwallet", "0xrouter", "0xbusd")], 3⟩) :=
  trade_transaction_counts testRoutingModel testQuote testQuote testChain testChain
    "0xwallet" ⟨[], 0⟩ testCakeBnbPair testCakeBnbPair testBusd 100 100 true true
    (some testBnbBusdPair) (some testBnbBusdPair) "0xrouter"
    ["0xbusd", "0xwbnb", "0xcake"] ["0xbusd", "0xwbnb", "0xcake"]
    (by decide) (by decide) (by decide) (fun _ => by decide) (by decide) (by decide)
    (by decide) (by decide) (by decide) (fun _ => by decide)

/-- C3.  A routable trade request with the balance check enabled whose input
amount exceeds the wallet's on-chain balance of the input asset fails with
OutOfBalance and returns zero transactions, and the Routing State comes back
unchanged: no partial transaction is ever emitted. -/
theorem trade_out_of_balance_no_transactions (model : UniswapV2SimpleRoutingModel)
    (quote : List String → Nat → Nat) (chain : Chain) (wallet : String)
    (rs : UniswapV2RoutingState) (pair : TradingPairIdentifier)
    (input_asset : AssetIdentifier) (amount : Nat)
    (ip : Option TradingPairIdentifier) (router : String) (path : List String)
    (hr : model.routerFor pair = some router)
    (hp : model.selectPath pair input_asset ip = .ok path)
    (hamt : amount ≠ 0)
    (hbal : chain.balanceOf input_asset.address wallet < amount) :
    model.trade quote chain wallet rs pair input_asset amount true ip =
      (.error .outOfBalance, rs) := by
  have h0 : (amount == 0) = false := by simp [hamt]
  have hb : (true && decide (chain.balanceOf input_asset.address wallet < amount)) = true := by
    simp [hbal]
  unfold UniswapV2SimpleRoutingModel.trade
  rw [h0, hr, hp, hb]
  simp

/-- Witness for C3: buying with 1000000 units of BUSD against a wallet
holding 10000 fails with OutOfBalance and leaves the fresh Routing State
untouched. -/
theorem trade_out_of_balance_no_transactions_witness :
    testRoutingModel.trade testQuote testChain "0xwallet" ⟨[], 0⟩ testCakeBusdPair testBusd
        1000000 true none = (.error .outOfBalance, ⟨[], 0⟩) :=
  trade_out_of_balance_no_transactions testRoutingModel testQuote testChain "0xwallet"
    ⟨[], 0⟩ testCakeBusdPair testBusd 1000000 none "0xrouter" ["0xbusd", "0xcake"]
    (by decide) (by decide) (by decide) (by decide)

/-- C4.  Every successfully routed trade ends in a swap transaction whose
encoded path is the selected ordered list of token addresses, of length
exactly 2 on the direct-pair branch and exactly 3 when an intermediary pair
is used. -/
theorem trade_swap_path_lengths (model : UniswapV2SimpleRoutingModel)
    (quote : List String → Nat → Nat) (chain : Chain) (wallet : String)
    (rs : UniswapV2RoutingState) (pair : TradingPairIdentifier)
    (input_asset : AssetIdentifier) (amount : Nat) (check : Bool)
    (ip : Option TradingPairIdentifier) (txs : List UnsignedTx)
    (rs' : UniswapV2RoutingState)
    (h : model.trade quote chain wallet rs pair input_asset amount check ip =
      (.ok txs, rs')) :
    ∃ router path nonce,
      model.routerFor pair = some router ∧
      model.selectPath pair input_asset ip = .ok path ∧
      txs.getLast? = some ⟨nonce, .swap router path amount (quote path amount)⟩ ∧
      path.length = (if model.isDirect pair input_asset then 2 else 3) := by
  unfold UniswapV2SimpleRoutingModel.trade at h
  by_cases h0 : (amount == 0) = true
  · rw [if_pos h0] at h; exact absurd h (by simp)
  · rw [if_neg h0] at h
    cases hr : model.routerFor pair with
    | none => rw [hr] at h; exact absurd h (by simp)
    | some router =>
      rw [hr] at h
      simp only [] at h
      cases hp : model.selectPath pair input_asset ip with
      | error e => rw [hp] at h; exact absurd h (by simp)
      | ok path =>
        rw [hp] at h
        simp only [] at h
        by_cases hb : (check && decide (chain.balanceOf input_asset.address wallet < amount)) = true
        · rw [if_pos hb] at h; exact absurd h (by simp)
        · rw [if_neg hb] at h
          by_cases hc : (rs.approvals.contains (wallet, router, input_asset.address)) = true
          · rw [if_pos hc] at h
            simp only [Prod.mk.injEq, Except.ok.injEq] at h
            obtain ⟨htxs, -⟩ := h
            subst htxs
            exact ⟨router, path, rs.next_nonce, rfl, rfl, rfl,
              selectPath_length model pair input_asset ip path hp⟩
          · rw [if_neg hc] at h
            by_cases ha : amount ≤ chain.allowanceOf input_asset.address wallet router
            · rw [if_pos ha] at h
              simp only [Prod.mk.injEq, Except.ok.injEq] at h
              obtain ⟨htxs, -⟩ := h
              subst htxs
              exact ⟨router, path, rs.next_nonce, rfl, rfl, rfl,
                selectPath_length model pair input_asset ip path hp⟩
            · rw [if_neg ha] at h
              simp only [Prod.mk.injEq, Except.ok.injEq] at h
              obtain ⟨htxs, -⟩ := h
              subst htxs
              exact ⟨router, path, rs.next_nonce + 1, rfl, rfl, rfl,
                selectPath_length model pair input_asset ip path hp⟩

/-- Witness for C4: the three-leg fixture trade succeeds and its last
transaction is the swap carrying the selected 3-address path. -/
theorem trade_swap_path_lengths_witness :
    testRoutingModel.trade testQuote testChain "0xwallet" ⟨[], 0⟩ testCakeBnbPair testBusd
        100 true (some testBnbBusdPair) =
      (.ok [⟨0, .approve "0xbusd" "0xrouter" maxApproval⟩,
            ⟨1, .swap "0xrouter" ["0xbusd", "0xwbnb", "0xcake"] 100 100⟩],
       ⟨[("0xwallet", "0xrouter", "0xbusd")], 2⟩) ∧
    (∃ router path nonce,
      testRoutingModel.routerFor testCakeBnbPair = some router ∧
      testRoutingModel.selectPath testCakeBnbPair testBusd (some testBnbBusdPair) =
        .ok path ∧
      ([⟨0, .approve "0xbusd" "0xrouter" maxApproval⟩,
        ⟨1, .swap "0xrouter" ["0xbusd", "0xwbnb", "0xcake"] 100 100⟩] :
          List UnsignedTx).getLast? =
        some ⟨nonce, .swap router path 100 (testQuote path 100)⟩ ∧
      path.length = (if testRoutingModel.isDirect testCakeBnbPair testBusd then 2 else 3)) :=
  ⟨by decide,
   trade_swap_path_lengths testRoutingModel testQuote testChain "0xwallet" ⟨[], 0⟩
     testCakeBnbPair testBusd 100 true (some testBnbBusdPair)
     [⟨0, .approve "0xbusd" "0xrouter" maxApproval⟩,
      ⟨1, .swap "0xrouter" ["0xbusd", "0xwbnb", "0xcake"] 100 100⟩]
     ⟨[("0xwallet", "0xrouter", "0xbusd")], 2⟩ (by decide)⟩

/-- The swap leg of an applied transaction never changes any allowance. -/
theorem applyTx_swap_allowanceOf (wallet : String) (c : Chain) (n : Nat)
    (r : String) (p : List String) (a q : Nat) (x y z : String) :
    (applyTx wallet c ⟨n, .swap r p a q⟩).allowanceOf x y z = c.allowanceOf x y z := by
  unfold applyTx
  cases p <;> rfl

/-- Reading back the allowance just set on chain. -/
theorem setAllowance_allowanceOf_self (c : Chain) (t o s : String) (a : Nat) :
    (c.setAllowance t o s a).allowanceOf t o s = a := by
  simp [Chain.setAllowance, Chain.allowanceOf, List.lookup]

/-- C8.  An approval made in a prior session survives a Routing State reset:
after the first session's approval and swap are applied on chain and the
Routing State is recreated empty, the next trade of the same asset re-reads
the live on-chain allowance — the unlimited approval is still valid — and
emits the swap only, with no duplicate approval transaction. -/
theorem trade_no_duplicate_approval_across_reset (model : UniswapV2SimpleRoutingModel)
    (quote quote2 : List String → Nat → Nat) (chain : Chain) (wallet : String)
    (rs rs2 : UniswapV2RoutingState) (pair : TradingPairIdentifier)
    (input_asset : AssetIdentifier) (amount amount2 : Nat) (check check2 : Bool)
    (ip : Option TradingPairIdentifier) (router : String) (path : List String)
    (hr : model.routerFor pair = some router)
    (hp : model.selectPath pair input_asset ip = .ok path)
    (hamt : amount ≠ 0)
    (hbal : check = true → ¬ chain.balanceOf input_asset.address wallet < amount)
    (hcache : rs.approvals.contains (wallet, router, input_asset.address) = false)
    (hallow : ¬ amount ≤ chain.allowanceOf input_asset.address wallet router)
    (hamt2 : amount2 ≠ 0)
    (hmax : amount2 ≤ maxApproval)
    (hrs2 : rs2.approvals.contains (wallet, router, input_asset.address) = false)
    (hbal2 : check2 = true →
      ¬ ([(⟨rs.next_nonce, .approve input_asset.address router maxApproval⟩ : UnsignedTx),
          ⟨rs.next_nonce + 1, .swap router path amount (quote path amount)⟩].foldl
          (applyTx wallet) chain).balanceOf input_asset.address wallet < amount2) :
    model.trade quote chain wallet rs pair input_asset amount check ip =
      (.ok [⟨rs.next_nonce, .approve input_asset.address router maxApproval⟩,
            ⟨rs.next_nonce + 1, .swap router path amount (quote path amount)⟩],
       ⟨(wallet, router, input_asset.address) :: rs.approvals, rs.next_nonce + 2⟩) ∧
    model.trade quote2
        ([(⟨rs.next_nonce, .approve input_asset.address router maxApproval⟩ : UnsignedTx),
          ⟨rs.next_nonce + 1, .swap router path amount (quote path amount)⟩].foldl
          (applyTx wallet) chain)
        wallet rs2 pair input_asset amount2 check2 ip =
      (.ok [⟨rs2.next_nonce, .swap router path amount2 (quote2 path amount2)⟩],
       ⟨(wallet, router, input_asset.address) :: rs2.approvals, rs2.next_nonce + 1⟩) := by
  have h0 : (amount == 0) = false := by simp [hamt]
  have h02 : (amount2 == 0) = false := by simp [hamt2]
  have hbg : (check && decide (chain.balanceOf input_asset.address wallet < amount)) = false := by
    cases check with
    | false => rfl
    | true => simp [hbal rfl]
  refine ⟨trade_emits_approve_and_swap model quote chain wallet rs pair input_asset amount
    check ip router path hr hp h0 hbg hcache hallow, ?_⟩
  have hall : ([(⟨rs.next_nonce, .approve input_asset.address router maxApproval⟩ : UnsignedTx),
      ⟨rs.next_nonce + 1, .swap router path amount (quote path amount)⟩].foldl
      (applyTx wallet) chain).allowanceOf input_asset.address wallet router = maxApproval := by
    show (applyTx wallet
      (applyTx wallet chain ⟨rs.next_nonce, .approve input_asset.address router maxApproval⟩)
      ⟨rs.next_nonce + 1, .swap router path amount (quote path amount)⟩).allowanceOf
        input_asset.address wallet router = maxApproval
    rw [applyTx_swap_allowanceOf]
    exact setAllowance_allowanceOf_self chain input_asset.address wallet router maxApproval
  have hbg2 : (check2 && decide
      (([(⟨rs.next_nonce, .approve input_asset.address router maxApproval⟩ : UnsignedTx),
        ⟨rs.next_nonce + 1, .swap router path amount (quote path amount)⟩].foldl
        (applyTx wallet) chain).balanceOf input_asset.address wallet < amount2)) = false := by
    cases check2 with
    | false => rfl
    | true =>
      simp only [Bool.true_and, decide_eq_false_iff_not]
      exact hbal2 rfl
  exact trade_allowance_swap_only model quote2 _ wallet rs2 pair input_asset amount2 check2
    ip router path hr hp h02 hbg2 hrs2 (by rw [hall]; exact hmax)

/-- Witness for C8: after the fixture's approval and swap are applied on
chain and a fresh Routing State is created, the repeat three-leg trade emits
the swap only. -/
theorem trade_no_duplicate_approval_across_reset_witness :
    testRoutingModel.trade testQuote testChain "0xwallet" ⟨[], 0⟩ testCakeBnbPair testBusd
        100 true (some testBnbBusdPair) =
      (.ok [⟨0, .approve "0xbusd" "0xrouter" maxApproval⟩,
            ⟨1, .swap "0xrouter" ["0xbusd", "0xwbnb", "0xcake"] 100 100⟩],
       ⟨[("0xwallet", "0xrouter", "0xbusd")], 2⟩) ∧
    testRoutingModel.trade testQuote
        ([(⟨0, .approve "0xbusd" "0xrouter" maxApproval⟩ : UnsignedTx),
          ⟨1, .swap "0xrouter" ["0xbusd", "0xwbnb", "0xcake"] 100 100⟩].foldl
          (applyTx "0xwallet") testChain)
        "0xwallet" ⟨[], 5⟩ testCakeBnbPair testBusd 100 true (some testBnbBusdPair) =
      (.ok [⟨5, .swap "0xrouter" ["0xbusd", "0xwbnb", "0xcake"] 100 100⟩],
       ⟨[("0xwallet", "0xrouter", "0xbusd")], 6⟩) :=
  trade_no_duplicate_approval_across_reset testRoutingModel testQuote testQuote testChain
    "0xwallet" ⟨[], 0⟩ ⟨[], 5⟩ testCakeBnbPair testBusd 100 100 true true
    (some testBnbBusdPair) "0xrouter" ["0xbusd", "0xwbnb", "0xcake"]
    (by decide) (by decide) (by decide) (fun _ => by decide) (by decide) (by decide)
    (by decide) (by decide) (by decide) (fun _ => by decide)
